import Mathlib

/-!
Verification of the game-clock / state-simulation engine of the NFLPlayCall
repository (`superbowlagent.py`).  The engine keeps one mutable `game_state`
record and exposes three operations that the claims are about:

* `get_game_time`       (superbowlagent.py lines 200-234): derives quarter and
  clock from accelerated elapsed time and caches them into the shared state;
* `simulate_game_update` (lines 245-307): tries to sync the state from a live
  ESPN-style JSON scoreboard feed and on any failure, missing matchup, or
  mid-extraction exception falls back to the local simulation;
* `_fallback_simulation` (lines 309-324, here `fallback_simulation`): marks the
  game started, recomputes the clock from elapsed time and applies a
  pseudo-random scoring event on every 10th update.

The feed payload is modelled as a small JSON value type and the Python dict /
list / int / `in` operations the adapter uses are modelled as `Except`-valued
functions that raise (return `.error ()`) exactly where the Python operation
raises, so that "exception after some state writes -> fallback on the partial
state" is representable.  Randomness (`random.choice`) is modelled by explicit
arguments, and wall-clock elapsed time by an explicit accelerated-seconds
argument `g = floor(2 * (time.time() - game_start_timestamp))`.
-/

/-- JSON values as delivered by `response.json()`.  Numbers are integers
(the feed fields consumed by the code are scores, periods and strings). -/
inductive Json where
  | null
  | bool (b : Bool)
  | str (s : String)
  | num (n : Int)
  | arr (elems : List Json)
  | obj (fields : List (String × Json))

/-- First binding of a key in a JSON object body (Python dict lookup). -/
def jlookup : List (String × Json) → String → Option Json
  | [], _ => none
  | (k, v) :: rest, key => if k = key then some v else jlookup rest key

/-- Python `d.get(key, default)`: returns the default when the key is absent,
raises `AttributeError` when the receiver is not a dict. -/
def jget (j : Json) (key : String) (dflt : Json) : Except Unit Json :=
  match j with
  | Json.obj fields => .ok ((jlookup fields key).getD dflt)
  | _ => .error ()

/-- Python `x[i]` for the index positions the adapter uses: list indexing,
raising on out-of-range and on non-list receivers.  (Indexing a string would
return a one-character string in Python; every continuation of the adapter
then calls `.get` on it and raises, so modelling it as an immediate error is
consequence-equivalent.) -/
def jindex (j : Json) (i : Nat) : Except Unit Json :=
  match j with
  | Json.arr elems =>
    match elems.get? i with
    | some v => .ok v
    | none => .error ()
  | _ => .error ()

/-- Python `len(x)`: defined for lists, dicts and strings, raises otherwise. -/
def pyLen (j : Json) : Except Unit Nat :=
  match j with
  | Json.arr l => .ok l.length
  | Json.obj l => .ok l.length
  | Json.str s => .ok s.length
  | _ => .error ()

/-- Decimal digit value of a character, `none` for non-digits. -/
def digitVal? (c : Char) : Option Nat :=
  if c = '0' then some 0 else if c = '1' then some 1 else if c = '2' then some 2
  else if c = '3' then some 3 else if c = '4' then some 4 else if c = '5' then some 5
  else if c = '6' then some 6 else if c = '7' then some 7 else if c = '8' then some 8
  else if c = '9' then some 9 else none

/-- Parse a non-empty digit string into a natural number, `none` when any
character is not a digit. -/
def parseNatAux : List Char → Nat → Option Nat
  | [], acc => some acc
  | c :: cs, acc =>
    match digitVal? c with
    | some d => parseNatAux cs (acc * 10 + d)
    | none => none

/-- Parse a decimal integer literal the way Python `int(str)` does (an
optional minus sign followed by at least one digit; surrounding whitespace,
which the feed never produces, is not modelled). -/
def pyIntOfString (s : String) : Option Int :=
  match s.data with
  | [] => none
  | '-' :: [] => none
  | '-' :: c :: cs => (parseNatAux (c :: cs) 0).map fun n => -(n : Int)
  | cs => (parseNatAux cs 0).map fun n => (n : Int)

/-- Python `int(x)`: identity on ints, 1/0 on bools, decimal parse on strings
(raising `ValueError` when the string is not a decimal literal), raises on
everything else. -/
def pyInt (j : Json) : Except Unit Int :=
  match j with
  | Json.num n => .ok n
  | Json.bool b => .ok (if b then 1 else 0)
  | Json.str s =>
    match pyIntOfString s with
    | some n => .ok n
    | none => .error ()
  | _ => .error ()

/-- Python truthiness of a JSON value. -/
def truthy (j : Json) : Bool :=
  match j with
  | Json.null => false
  | Json.bool b => b
  | Json.str s => s ≠ ""
  | Json.num n => n ≠ 0
  | Json.arr l => !l.isEmpty
  | Json.obj l => !l.isEmpty

/-- Python `x == "lit"` for a JSON value against a string literal: true only
for an equal string, false (no exception) for every other shape. -/
def eqStr (j : Json) (t : String) : Bool :=
  match j with
  | Json.str s => s = t
  | _ => false

/-- Python `":" in x`: substring test on strings, membership (equality with
the string `":"`) on lists, key membership on dicts, `TypeError` otherwise. -/
def containsColon (j : Json) : Except Unit Bool :=
  match j with
  | Json.str s => .ok (s.data.any fun c => c = ':')
  | Json.arr l => .ok (l.any fun e => eqStr e ":")
  | Json.obj l => .ok (l.any fun kv => kv.1 = ":")
  | _ => .error ()

/-- Rendering of a JSON value inside an f-string (only used for the returned
status message; container renderings are abbreviated). -/
def pyStr (j : Json) : String :=
  match j with
  | Json.null => "None"
  | Json.bool b => if b then "True" else "False"
  | Json.str s => s
  | Json.num n => toString n
  | Json.arr _ => "[...]"
  | Json.obj _ => "{...}"

/-- The shared `game_state` dict (superbowlagent.py lines 29-43).  `quarter`,
`time_remaining` and `possession` are kept as JSON values because the live
branch stores raw feed values into them.  Fields the modelled operations never
read nor write (`previous_score`, `commercials_seen`, `notable_plays`,
`player_stats`) are omitted, and `game_start_timestamp` is abstracted into the
elapsed-seconds argument of `get_game_time`. -/
structure GameState where
  ne_score : Int
  sea_score : Int
  quarter : Json
  time_remaining : Json
  game_started : Bool
  game_ended : Bool
  possession : Json
  halftime_passed : Bool
  win_prob_ne : Int
  win_prob_sea : Int

/-- Initial `game_state` (lines 29-43): score 0-0, quarter 1, clock 15:00,
not started, possession NE, win probability 55 / 45. -/
def initGameState : GameState :=
  { ne_score := 0
    sea_score := 0
    quarter := Json.num 1
    time_remaining := Json.str "15:00"
    game_started := false
    game_ended := false
    possession := Json.str "NE"
    halftime_passed := false
    win_prob_ne := 55
    win_prob_sea := 45 }

/-- Python `f"{n:02d}"` for the minute/second counts produced here (< 100). -/
def fmt2 (n : Nat) : String :=
  if n < 10 then "0" ++ toString n else toString n

/-- Line 215-216: `quarter = int(game_seconds_elapsed // 900) + 1` capped at
4, as a function of accelerated elapsed game seconds. -/
def quarterCalc (g : Nat) : Nat :=
  min (g / 900 + 1) 4

/-- Lines 219-220: seconds remaining in the current quarter. -/
def secsRemaining (g : Nat) : Nat :=
  900 - g % 900

/-- Lines 222-225: the `mm:ss` clock string. -/
def clockString (g : Nat) : String :=
  fmt2 (secsRemaining g / 60) ++ ":" ++ fmt2 (secsRemaining g % 60)

/-- `get_game_time` (lines 200-234).  `g` is the accelerated elapsed game
time in whole seconds, `g = floor(2 * (time.time() - game_start_timestamp))`
(the code computes with a float; flooring once at the outside agrees with the
code's `int(.. // 900)` and `int(.. % 900)`).  Returns the `(time_str,
quarter)` pair the Python function returns together with the mutated state:
the function writes the derived quarter and clock into the shared state and
sets `game_ended` when quarter 4 shows 00:00. -/
def get_game_time (g : Nat) (s : GameState) : (String × Nat) × GameState :=
  if s.game_started = false then
    (("15:00", 1), s)
  else
    let quarter := quarterCalc g
    let minutes := secsRemaining g / 60
    let seconds := secsRemaining g % 60
    let timeStr := clockString g
    let s1 := { s with quarter := Json.num (quarterCalc g : Int),
                       time_remaining := Json.str (clockString g) }
    if quarter = 4 ∧ minutes = 0 ∧ seconds = 0 then
      ((timeStr, quarter), { s1 with game_ended := true })
    else
      ((timeStr, quarter), s1)

/-- The point values `random.choice([3, 6, 7])` can pick (line 320/322). -/
def points (p : Fin 3) : Nat :=
  [3, 6, 7].get p

/-- Lines 319-322: add the chosen points to the coin-chosen team
(`coin = true` picks NE, `coin = false` picks SEA). -/
def bump (coin : Bool) (pts : Fin 3) (s : GameState) : GameState :=
  if coin then { s with ne_score := s.ne_score + (points pts : Int) }
  else { s with sea_score := s.sea_score + (points pts : Int) }

/-- `_fallback_simulation` (lines 309-324).  `m` is `self.update_count` as the
method reads it, `g` the accelerated elapsed seconds passed through to
`get_game_time`, `coin`/`pts` the two `random.choice` draws.  The method sets
`game_started`, recomputes the clock from elapsed time (mutating the state),
and on every 10th update (when the game has not ended) applies one scoring
event.  Returns the mutated state and the returned message string. -/
def fallback_simulation (m g : Nat) (coin : Bool) (pts : Fin 3) (s : GameState) :
    GameState × String :=
  match get_game_time g { s with game_started := true } with
  | ((timeStr, q), s2) =>
    (if m % 10 = 0 ∧ s2.game_ended = false then bump coin pts s2 else s2,
     "Simulated: Q" ++ toString q ++ " " ++ timeStr)

/-- Line 258: `game.get("competitions", [{}])[0].get("competitors", [])`. -/
def getCompetitors (game : Json) : Except Unit Json := do
  let comps ← jget game "competitions" (Json.arr [Json.obj []])
  let c0 ← jindex comps 0
  jget c0 "competitors" (Json.arr [])

/-- Lines 261-262: `competitors[i].get("team", {}).get("abbreviation", "")`. -/
def getAbbrev (competitors : Json) (i : Nat) : Except Unit Json := do
  let c ← jindex competitors i
  let t ← jget c "team" (Json.obj [])
  jget t "abbreviation" (Json.str "")

/-- Lines 267-268: `int(competitors[i].get("score", 0))`. -/
def getScore (competitors : Json) (i : Nat) : Except Unit Int := do
  let c ← jindex competitors i
  let sc ← jget c "score" (Json.num 0)
  pyInt sc

/-- Line 278: `game.get("competitions", [{}])[0].get("status", {}).get("displayClock", "15:00")`. -/
def getDisplayClock (game : Json) : Except Unit Json := do
  let comps ← jget game "competitions" (Json.arr [Json.obj []])
  let c0 ← jindex comps 0
  let st ← jget c0 "status" (Json.obj [])
  jget st "displayClock" (Json.str "15:00")

/-- Line 283: `game.get("competitions", [{}])[0].get("status", {}).get("period", 1)`. -/
def getPeriod (game : Json) : Except Unit Json := do
  let comps ← jget game "competitions" (Json.arr [Json.obj []])
  let c0 ← jindex comps 0
  let st ← jget c0 "status" (Json.obj [])
  jget st "period" (Json.num 1)

/-- Line 287: `game.get("competitions", [{}])[0].get("situation", {}).get("possession", "NE")`. -/
def getPossession (game : Json) : Except Unit Json := do
  let comps ← jget game "competitions" (Json.arr [Json.obj []])
  let c0 ← jindex comps 0
  let sit ← jget c0 "situation" (Json.obj [])
  jget sit "possession" (Json.str "NE")

/-- Line 291: `game.get("status", {}).get("type", {}).get("description", "")`. -/
def getStatusDesc (game : Json) : Except Unit Json := do
  let st ← jget game "status" (Json.obj [])
  let ty ← jget st "type" (Json.obj [])
  jget ty "description" (Json.str "")

/-- Lines 278-280: evaluate the display clock and the guard
`if clock and ":" in clock`; `some c` means the clock is written, `none` that
the write is skipped.  Python short-circuits, so a falsy non-string clock does
not raise, while a truthy non-string reaches `":" in clock` and raises. -/
def clockUpdateValue (game : Json) : Except Unit (Option Json) := do
  let clock ← getDisplayClock game
  if truthy clock = false then
    pure none
  else do
    let b ← containsColon clock
    pure (if b then some clock else none)

/-- One iteration of the `for game in games` loop (lines 257-300) on one
event.  `.error s2` models a Python exception escaping the loop body with the
state writes performed so far retained (`s2` is the partial state at the raise
point), `.ok none` models a non-matching event (fall through to the next
iteration), and `.ok (some (s2, msg))` models the `return` on a matched
matchup with the fully updated state. -/
def processGame (game : Json) (s : GameState) :
    Except GameState (Option (GameState × String)) :=
  match getCompetitors game with
  | .error _ => .error s
  | .ok competitors =>
  match pyLen competitors with
  | .error _ => .error s
  | .ok len =>
  if len < 2 then .ok none else
  match getAbbrev competitors 0 with
  | .error _ => .error s
  | .ok team1 =>
  match getAbbrev competitors 1 with
  | .error _ => .error s
  | .ok team2 =>
  if (eqStr team1 "NE" || eqStr team1 "SEA") && (eqStr team2 "NE" || eqStr team2 "SEA") then
    match getScore competitors 0 with
    | .error _ => .error s
    | .ok score1 =>
    match getScore competitors 1 with
    | .error _ => .error s
    | .ok score2 =>
    let sA := if eqStr team1 "NE" then
        { s with ne_score := score1, sea_score := score2 }
      else
        { s with sea_score := score1, ne_score := score2 }
    match clockUpdateValue game with
    | .error _ => .error sA
    | .ok oc =>
    let sB := match oc with
      | some c => { sA with time_remaining := c }
      | none => sA
    match getPeriod game with
    | .error _ => .error sB
    | .ok period =>
    let sC := { sB with quarter := period }
    match getPossession game with
    | .error _ => .error sC
    | .ok poss =>
    let sD := { sC with possession := poss }
    match getStatusDesc game with
    | .error _ => .error sD
    | .ok statusJ =>
    let sE := if eqStr statusJ "Final" then { sD with game_ended := true }
      else if eqStr statusJ "Halftime" then
        (if sD.halftime_passed = false then { sD with halftime_passed := true } else sD)
      else sD
    let sF := { sE with game_started := true }
    .ok (some (sF, "Update: " ++ pyStr statusJ))
  else .ok none

/-- The `for game in games` loop: stops at the first raised exception (with
the partial state) or at the first matched matchup; skipped events leave the
state untouched. -/
def processGames : List Json → GameState → Except GameState (Option (GameState × String))
  | [], _ => .ok none
  | gj :: rest, s =>
    match processGame gj s with
    | .error s2 => .error s2
    | .ok (some r) => .ok (some r)
    | .ok none => processGames rest s

/-- `simulate_game_update` (lines 245-307).  `fetch` is the outcome of the
HTTP request / `raise_for_status` / `response.json()` prefix (`.error ()` for
any transport or decode failure), `m` is `self.update_count` before the
method's own increment, and `g`, `coin`, `pts` are passed to the fallback.
Any exception inside the `try` block lands in the `except` handler (line
305-307) and runs the fallback on the state as mutated so far; completing the
loop without a match (line 303) also runs the fallback.  A non-list `events`
value makes the first loop operation raise before any write, so it is
modelled as the fallback on the unchanged state.  Returns the new
`update_count`, the final state and the returned message. -/
def simulate_game_update (fetch : Except Unit Json) (m g : Nat) (coin : Bool)
    (pts : Fin 3) (s : GameState) : Nat × GameState × String :=
  let m2 := m + 1
  match fetch with
  | .error _ =>
    let r := fallback_simulation m2 g coin pts s
    (m2, r.1, r.2)
  | .ok body =>
    match jget body "events" (Json.arr []) with
    | .error _ =>
      let r := fallback_simulation m2 g coin pts s
      (m2, r.1, r.2)
    | .ok eventsJ =>
      match eventsJ with
      | Json.arr events =>
        match processGames events s with
        | .ok (some (s2, msg)) => (m2, s2, msg)
        | .ok none =>
          let r := fallback_simulation m2 g coin pts s
          (m2, r.1, r.2)
        | .error s2 =>
          let r := fallback_simulation m2 g coin pts s2
          (m2, r.1, r.2)
      | _ =>
        let r := fallback_simulation m2 g coin pts s
        (m2, r.1, r.2)

/-- A state in which the game has been started (the `Start Game` button of the
dashboard sets exactly this flag on the fresh state). -/
def startedState : GameState :=
  { initGameState with game_started := true }

/-- The state produced by the local (elapsed-time) derivation of one advance
cycle before any scoring event: game marked started, quarter and clock
recomputed from the accelerated elapsed seconds. -/
def localDerived (g : Nat) (s : GameState) : GameState :=
  { s with game_started := true,
           quarter := Json.num (quarterCalc g : Int),
           time_remaining := Json.str (clockString g) }

/-- A well-formed competitor entry of the scoreboard feed. -/
def mkCompetitor (ab : String) (sc : Json) : Json :=
  Json.obj [("team", Json.obj [("abbreviation", Json.str ab)]), ("score", sc)]

/-- A well-formed event of the scoreboard feed for the tracked matchup. -/
def mkGame (c1 c2 : Json) (clock : String) (period : Int) (poss : String) : Json :=
  Json.obj [
    ("competitions", Json.arr [Json.obj [
       ("competitors", Json.arr [c1, c2]),
       ("status", Json.obj [("displayClock", Json.str clock), ("period", Json.num period)]),
       ("situation", Json.obj [("possession", Json.str poss)])]]),
    ("status", Json.obj [("type", Json.obj [("description", Json.str "In Progress")])])]

/-- Feed reporting NE 21, SEA 14, period 3, clock 08:12, possession SEA, with
the NE competitor listed first. -/
def feedA : Except Unit Json :=
  .ok (Json.obj [("events", Json.arr
    [mkGame (mkCompetitor "NE" (Json.str "21")) (mkCompetitor "SEA" (Json.str "14"))
      "08:12" 3 "SEA"])])

/-- The same report with the competitors listed in the other order. -/
def feedB : Except Unit Json :=
  .ok (Json.obj [("events", Json.arr
    [mkGame (mkCompetitor "SEA" (Json.str "14")) (mkCompetitor "NE" (Json.str "21"))
      "08:12" 3 "SEA"])])

/-- A feed whose matching event is well-formed through the score fields but
carries a malformed `status` inside the competition (a string where a dict is
expected): score extraction and both score writes succeed, then the display
clock lookup raises. -/
def badFeed : Except Unit Json :=
  .ok (Json.obj [("events", Json.arr [Json.obj [
    ("competitions", Json.arr [Json.obj [
       ("competitors", Json.arr [mkCompetitor "NE" (Json.str "0"),
                                 mkCompetitor "SEA" (Json.str "0")]),
       ("status", Json.str "bad")]])]])])

/-- A fully well-formed feed for the tracked matchup, parametrised by the two
scores and the period. -/
def liveFeed (ne sea per : Int) : Except Unit Json :=
  .ok (Json.obj [("events", Json.arr
    [mkGame (mkCompetitor "NE" (Json.num ne)) (mkCompetitor "SEA" (Json.num sea))
      "07:00" per "SEA"])])

/-- A well-formed event that also carries a win-probability figure of 80 in
an odds block (the shape the public feed uses); the adapter never reads it. -/
def oddsGame : Json :=
  Json.obj [
    ("competitions", Json.arr [Json.obj [
       ("competitors", Json.arr [mkCompetitor "NE" (Json.str "21"),
                                 mkCompetitor "SEA" (Json.str "14")]),
       ("status", Json.obj [("displayClock", Json.str "08:12"), ("period", Json.num 3)]),
       ("situation", Json.obj [("possession", Json.str "SEA")]),
       ("odds", Json.arr [Json.obj [
          ("provider", Json.obj [("name", Json.str "ESPN BET")]),
          ("homeTeamOdds", Json.obj [("winPercentage", Json.num 80)])]])]]),
    ("status", Json.obj [("type", Json.obj [("description", Json.str "In Progress")])])]

/-- The feed wrapping `oddsGame`. -/
def oddsFeed : Except Unit Json :=
  .ok (Json.obj [("events", Json.arr [oddsGame])])

/-- A mid-game state in which NE already has 7 points. -/
def sevenPointState : GameState :=
  { startedState with ne_score := 7 }

/-- The quarter never exceeds 4 and the remaining-seconds count stays in
[1, 900]: `900 - g % 900` can never be 0. -/
theorem secsRemaining_pos (g : Nat) : 1 ≤ secsRemaining g := by
  have h : g % 900 < 900 := Nat.mod_lt g (by norm_num)
  unfold secsRemaining
  omega

/-- The terminal `if` of `get_game_time` never fires: minutes and seconds
cannot both be 0 because at least one second always remains. -/
theorem gt_cond_false (g : Nat) :
    ¬(quarterCalc g = 4 ∧ secsRemaining g / 60 = 0 ∧ secsRemaining g % 60 = 0) := by
  rintro ⟨-, hm, hs⟩
  have h := secsRemaining_pos g
  omega

/-- With the game not started, `get_game_time` reports the pregame display
and leaves the state untouched (lines 203-204). -/
theorem gt_pregame (g : Nat) (s : GameState) (h : s.game_started = false) :
    get_game_time g s = (("15:00", 1), s) := by
  unfold get_game_time
  rw [if_pos h]

/-- With the game started, `get_game_time` returns the derived clock pair and
writes exactly the derived quarter and clock into the state. -/
theorem gt_started_eq (g : Nat) (s : GameState) (h : s.game_started = true) :
    get_game_time g s =
      ((clockString g, quarterCalc g),
       { s with quarter := Json.num (quarterCalc g : Int),
                time_remaining := Json.str (clockString g) }) := by
  unfold get_game_time
  rw [if_neg (by simp [h]), if_neg (gt_cond_false g)]

/-- One advance of the fallback simulation equals the local derivation,
followed by a scoring event exactly when the update count hits a multiple of
ten on a game that has not ended. -/
theorem fallback_result_eq (m g : Nat) (coin : Bool) (pts : Fin 3) (s : GameState) :
    fallback_simulation m g coin pts s =
      ((if m % 10 = 0 ∧ s.game_ended = false then bump coin pts (localDerived g s)
        else localDerived g s),
       "Simulated: Q" ++ toString (quarterCalc g) ++ " " ++ clockString g) := by
  unfold fallback_simulation localDerived
  rw [gt_started_eq g { s with game_started := true } rfl]

/-- A matched live event always leaves the state marked started (line 299);
the flag is the last write before the `return`. -/
theorem pg_some_started (gj : Json) (s s2 : GameState) (msg : String)
    (h : processGame gj s = .ok (some (s2, msg))) : s2.game_started = true := by
  unfold processGame at h
  repeat' split at h
  all_goals simp_all
  all_goals (obtain ⟨h1, -⟩ := h; subst h1; rfl)

/-- A matched live event never touches the win-probability fields. -/
theorem pg_some_wp (gj : Json) (s s2 : GameState) (msg : String)
    (h : processGame gj s = .ok (some (s2, msg))) :
    s2.win_prob_ne = s.win_prob_ne ∧ s2.win_prob_sea = s.win_prob_sea := by
  unfold processGame at h
  repeat' split at h
  all_goals simp_all
  all_goals (obtain ⟨h1, -⟩ := h; subst h1; constructor)
  all_goals (repeat' split)
  all_goals rfl

/-- An exception escaping the live branch never touches the win-probability
fields either, whatever partial state it leaves behind. -/
theorem pg_error_wp (gj : Json) (s s2 : GameState)
    (h : processGame gj s = .error s2) :
    s2.win_prob_ne = s.win_prob_ne ∧ s2.win_prob_sea = s.win_prob_sea := by
  unfold processGame at h
  repeat' split at h
  all_goals simp_all
  all_goals (subst h; constructor)
  all_goals rfl

/-- Loop version of `pg_some_started`. -/
theorem pgs_some_started (l : List Json) (s s2 : GameState) (msg : String)
    (h : processGames l s = .ok (some (s2, msg))) : s2.game_started = true := by
  induction l with
  | nil => simp [processGames] at h
  | cons gj rest ih =>
    unfold processGames at h
    split at h
    · simp_all
    · rename_i r hr
      have h4 : r = (s2, msg) := by simpa using h
      rw [h4] at hr
      exact pg_some_started gj s s2 msg hr
    · exact ih h

/-- Loop version of the win-probability preservation, covering both the
matched return and the escaping-exception outcome. -/
theorem pgs_wp (l : List Json) (s : GameState) :
    (∀ s2 msg, processGames l s = .ok (some (s2, msg)) →
      s2.win_prob_ne = s.win_prob_ne ∧ s2.win_prob_sea = s.win_prob_sea)
    ∧ (∀ s2, processGames l s = .error s2 →
      s2.win_prob_ne = s.win_prob_ne ∧ s2.win_prob_sea = s.win_prob_sea) := by
  induction l with
  | nil => constructor <;> intros <;> simp_all [processGames]
  | cons gj rest ih =>
    constructor
    · intro s2 msg h
      unfold processGames at h
      split at h
      · simp_all
      · rename_i r hr
        refine pg_some_wp gj s s2 msg ?_
        rw [hr]
        simp_all
      · exact ih.1 s2 msg h
    · intro s2 h
      unfold processGames at h
      split at h
      · rename_i hr
        exact pg_error_wp gj s s2 (by rw [hr]; simp_all)
      · simp_all
      · exact ih.2 s2 h

/-- A scoring event touches only the chosen team's score field. -/
theorem bump_frame (coin : Bool) (pts : Fin 3) (s : GameState) :
    (bump coin pts s).quarter = s.quarter
    ∧ (bump coin pts s).time_remaining = s.time_remaining
    ∧ (bump coin pts s).game_started = s.game_started
    ∧ (bump coin pts s).game_ended = s.game_ended
    ∧ (bump coin pts s).possession = s.possession
    ∧ (bump coin pts s).halftime_passed = s.halftime_passed
    ∧ (bump coin pts s).win_prob_ne = s.win_prob_ne
    ∧ (bump coin pts s).win_prob_sea = s.win_prob_sea := by
  unfold bump
  split <;> exact ⟨rfl, rfl, rfl, rfl, rfl, rfl, rfl, rfl⟩

/-- The scoring event adds the drawn points to the drawn team. -/
theorem bump_scores (coin : Bool) (pts : Fin 3) (s : GameState) :
    (coin = true → (bump coin pts s).ne_score = s.ne_score + (points pts : Int)
      ∧ (bump coin pts s).sea_score = s.sea_score)
    ∧ (coin = false → (bump coin pts s).sea_score = s.sea_score + (points pts : Int)
      ∧ (bump coin pts s).ne_score = s.ne_score) := by
  unfold bump
  cases coin <;> simp

/-- The drawn point value is one of 3, 6, 7. -/
theorem points_cases (pts : Fin 3) :
    points pts = 3 ∨ points pts = 6 ∨ points pts = 7 := by
  fin_cases pts <;> simp [points]

/-- The fallback always leaves the game marked started. -/
theorem fb_started (m g : Nat) (coin : Bool) (pts : Fin 3) (s : GameState) :
    (fallback_simulation m g coin pts s).1.game_started = true := by
  rw [fallback_result_eq]
  dsimp only
  split
  · rw [(bump_frame _ _ _).2.2.1]
    rfl
  · rfl

/-- The fallback never touches the win-probability fields. -/
theorem fb_wp (m g : Nat) (coin : Bool) (pts : Fin 3) (s : GameState) :
    (fallback_simulation m g coin pts s).1.win_prob_ne = s.win_prob_ne
    ∧ (fallback_simulation m g coin pts s).1.win_prob_sea = s.win_prob_sea := by
  rw [fallback_result_eq]
  dsimp only
  split
  · exact ⟨(bump_frame _ _ _).2.2.2.2.2.2.1, (bump_frame _ _ _).2.2.2.2.2.2.2⟩
  · exact ⟨rfl, rfl⟩

/-- C1: in elapsed-time mode with the game started, `get_game_time` sets
`game_ended` exactly when the derived quarter is 4 and the derived clock shows
00:00 (minutes and seconds both zero), and otherwise leaves the flag as it
was (so an already-set flag is never cleared); in particular at 3600
accelerated seconds the reported quarter is clamped to 4.  (The derived
remaining time always lies in [00:01, 15:00], so the terminal condition is in
fact never satisfied in this mode; the conditional write is nonetheless
exactly the one the code performs at lines 231-232.) -/
theorem elapsed_terminal_latch (t : Nat) (s : GameState) (h : s.game_started = true) :
    ((get_game_time t s).2.game_ended =
      if quarterCalc t = 4 ∧ secsRemaining t / 60 = 0 ∧ secsRemaining t % 60 = 0
      then true else s.game_ended)
    ∧ (get_game_time 3600 s).1.2 = 4 := by
  constructor
  · rw [gt_started_eq t s h, if_neg (gt_cond_false t)]
  · rw [gt_started_eq 3600 s h]
    rfl

/-- Witness for C1 at 3600 accelerated seconds on a started state. -/
theorem elapsed_terminal_latch_witness :
    startedState.game_started = true ∧ (get_game_time 3600 startedState).1.2 = 4 :=
  ⟨rfl, (elapsed_terminal_latch 3600 startedState rfl).2⟩

/-- C3: with the game started, the reported quarter is
`min(4, floor(t/900)+1)` of the accelerated elapsed seconds `t` (which the
code obtains as twice the real elapsed seconds), the remaining-seconds count
strictly decreases within a quarter, the clock string rolls back to `15:00`
at every quarter boundary, and at 450 accelerated seconds the report is
quarter 1, clock `07:30`. -/
theorem elapsed_quarter_clock (t : Nat) (s : GameState) (h : s.game_started = true) :
    (get_game_time t s).1.2 = min 4 (t / 900 + 1)
    ∧ (∀ u v : Nat, u < v → u / 900 = v / 900 → secsRemaining v < secsRemaining u)
    ∧ (∀ q : Nat, clockString (900 * q) = "15:00")
    ∧ (get_game_time 450 s).1 = ("07:30", 1) := by
  refine ⟨?_, ?_, ?_, ?_⟩
  · rw [gt_started_eq t s h]
    show quarterCalc t = _
    unfold quarterCalc
    omega
  · intro u v huv hq
    unfold secsRemaining
    omega
  · intro q
    have h900 : secsRemaining (900 * q) = 900 := by
      unfold secsRemaining
      omega
    unfold clockString
    rw [h900]
    rfl
  · rw [gt_started_eq 450 s h]
    rfl

/-- Witness for C3 at 450 accelerated seconds on a started state. -/
theorem elapsed_quarter_clock_witness :
    startedState.game_started = true
    ∧ (get_game_time 450 startedState).1 = ("07:30", 1) :=
  ⟨rfl, (elapsed_quarter_clock 450 startedState rfl).2.2.2⟩

/-- C9: with `game_started = false`, `get_game_time` reports quarter 1 and
clock 15:00 no matter how much time has elapsed, and leaves the whole state
(in particular `game_ended`) untouched. -/
theorem pregame_fixed_display (t : Nat) (s : GameState) (h : s.game_started = false) :
    (get_game_time t s).1 = ("15:00", 1) ∧ (get_game_time t s).2 = s := by
  rw [gt_pregame t s h]
  exact ⟨rfl, rfl⟩

/-- Witness for C9 on the initial state after a long wait. -/
theorem pregame_fixed_display_witness :
    initGameState.game_started = false
    ∧ (get_game_time 999999 initGameState).1 = ("15:00", 1)
    ∧ (get_game_time 999999 initGameState).2 = initGameState :=
  ⟨rfl, (pregame_fixed_display 999999 initGameState rfl).1,
    (pregame_fixed_display 999999 initGameState rfl).2⟩

/-- C7 counterexample: `get_game_time` is not read-only.  On a started state
with stored quarter 1, querying at 1000 accelerated elapsed seconds rewrites
the stored quarter to 2, so the query mutates the shared state. -/
theorem get_game_time_mutation_cex :
    (get_game_time 1000 startedState).2.quarter = Json.num 2
    ∧ startedState.quarter = Json.num 1
    ∧ Json.num 2 ≠ Json.num 1 := by
  refine ⟨rfl, rfl, fun h => ?_⟩
  injection h with h2
  exact absurd h2 (by decide)

/-- C7 amended: `get_game_time` does mutate the state, but only the derived
display fields: it writes `quarter`, `time_remaining` (and conditionally
`game_ended`), never the scores, possession, started/halftime flags or win
probabilities; and when the game has not started it mutates nothing at all.
`get_user_local_time` (lines 236-243) reads only the wall clock and the
timezone name and touches no game state, so it needs no state in the model. -/
theorem get_game_time_frame (t : Nat) (s : GameState) :
    ((get_game_time t s).2.ne_score = s.ne_score
    ∧ (get_game_time t s).2.sea_score = s.sea_score
    ∧ (get_game_time t s).2.possession = s.possession
    ∧ (get_game_time t s).2.game_started = s.game_started
    ∧ (get_game_time t s).2.halftime_passed = s.halftime_passed
    ∧ (get_game_time t s).2.win_prob_ne = s.win_prob_ne
    ∧ (get_game_time t s).2.win_prob_sea = s.win_prob_sea)
    ∧ (s.game_started = false → (get_game_time t s).2 = s) := by
  by_cases h : s.game_started = false
  · rw [gt_pregame t s h]
    exact ⟨⟨rfl, rfl, rfl, rfl, rfl, rfl, rfl⟩, fun _ => rfl⟩
  · have h2 : s.game_started = true := by
      revert h
      cases s.game_started <;> simp
    rw [gt_started_eq t s h2]
    exact ⟨⟨rfl, rfl, rfl, rfl, rfl, rfl, rfl⟩, fun hf => absurd hf h⟩

/-- Witness for the pregame clause of the C7 frame theorem. -/
theorem get_game_time_frame_witness :
    initGameState.game_started = false
    ∧ (get_game_time 777 initGameState).2 = initGameState :=
  ⟨rfl, (get_game_time_frame 777 initGameState).2 rfl⟩

/-- C6 counterexample: the fallback clock is not decremented by a fixed
30-second step.  One fallback call on a started state whose stored clock is
15:00, two accelerated seconds into the game, stores 14:58 — not the 14:30 a
fixed 30-second decrement would produce. -/
theorem fallback_fixed_step_cex :
    startedState.time_remaining = Json.str "15:00"
    ∧ (fallback_simulation 10 2 true 0 startedState).1.time_remaining = Json.str "14:58"
    ∧ ("14:58" : String) ≠ "14:30" :=
  ⟨rfl, rfl, by decide⟩

/-- C6 amended: on every update whose count is a multiple of 10, provided the
game has not ended, the fallback applies one scoring event of +3, +6 or +7
points to a pseudo-randomly chosen team (and otherwise leaves both scores
unchanged); the clock, however, is not stepped by a fixed 30 seconds but
recomputed from the accelerated elapsed time, which makes it reset to 15:00
at each quarter boundary with the quarter derived as `min(4, t/900 + 1)`. -/
theorem fallback_simulation_spec (m g : Nat) (coin : Bool) (pts : Fin 3) (s : GameState) :
    (fallback_simulation m g coin pts s).1.game_started = true
    ∧ (fallback_simulation m g coin pts s).1.quarter = Json.num (quarterCalc g : Int)
    ∧ (fallback_simulation m g coin pts s).1.time_remaining = Json.str (clockString g)
    ∧ (points pts = 3 ∨ points pts = 6 ∨ points pts = 7)
    ∧ (¬(m % 10 = 0 ∧ s.game_ended = false) →
        (fallback_simulation m g coin pts s).1.ne_score = s.ne_score
        ∧ (fallback_simulation m g coin pts s).1.sea_score = s.sea_score)
    ∧ (m % 10 = 0 → s.game_ended = false →
        (coin = true →
          (fallback_simulation m g coin pts s).1.ne_score = s.ne_score + (points pts : Int)
          ∧ (fallback_simulation m g coin pts s).1.sea_score = s.sea_score)
        ∧ (coin = false →
          (fallback_simulation m g coin pts s).1.sea_score = s.sea_score + (points pts : Int)
          ∧ (fallback_simulation m g coin pts s).1.ne_score = s.ne_score)) := by
  refine ⟨fb_started m g coin pts s, ?_, ?_, points_cases pts, ?_, ?_⟩
  · rw [fallback_result_eq]
    dsimp only
    split
    · rw [(bump_frame _ _ _).1]
      rfl
    · rfl
  · rw [fallback_result_eq]
    dsimp only
    split
    · rw [(bump_frame _ _ _).2.1]
      rfl
    · rfl
  · intro hn
    rw [fallback_result_eq]
    dsimp only
    rw [if_neg hn]
    exact ⟨rfl, rfl⟩
  · intro hm he
    rw [fallback_result_eq]
    dsimp only
    rw [if_pos ⟨hm, he⟩]
    constructor
    · intro hc
      exact (bump_scores coin pts _).1 hc
    · intro hc
      exact (bump_scores coin pts _).2 hc

/-- C2 counterexample: one advance cycle can mix live and local fields.  On a
started state with NE at 7 points, `badFeed` matches the tracked matchup and
its score extraction succeeds, so both scores are written from the feed
(NE becomes 0); the subsequent display-clock lookup raises on the malformed
`status`, the cycle falls back, and the clock/quarter are then produced by
the local derivation on the partially overwritten state.  The resulting state
has its scores from the live response (NE 0, not the 7 a pure local cycle
keeps) and its clock from the local derivation — a mixed cycle. -/
theorem live_fallback_mix_cex :
    (simulate_game_update badFeed 0 2 true 0 sevenPointState).2.1.ne_score = 0
    ∧ sevenPointState.ne_score = 7
    ∧ (fallback_simulation 1 2 true 0 sevenPointState).1.ne_score = 7
    ∧ (simulate_game_update badFeed 0 2 true 0 sevenPointState).2.1.time_remaining
        = (fallback_simulation 1 2 true 0 sevenPointState).1.time_remaining :=
  ⟨rfl, rfl, rfl, rfl⟩

/-- C2 amended: when the live fetch fails outright the cycle is exactly the
local fallback on the unchanged state (all fields local), and when the
matching event is fully well-formed every synced field is written from the
live response (all live); only a matching event that raises after its score
writes — as in the counterexample — produces a mixed cycle. -/
theorem advance_source_consistency :
    (∀ (m g : Nat) (coin : Bool) (pts : Fin 3) (s : GameState),
      simulate_game_update (Except.error ()) m g coin pts s
        = (m + 1, (fallback_simulation (m + 1) g coin pts s).1,
                  (fallback_simulation (m + 1) g coin pts s).2))
    ∧ (∀ (ne sea per : Int) (m g : Nat) (coin : Bool) (pts : Fin 3) (s : GameState),
      (simulate_game_update (liveFeed ne sea per) m g coin pts s).2.1
        = { s with ne_score := ne, sea_score := sea, quarter := Json.num per,
                   time_remaining := Json.str "07:00", possession := Json.str "SEA",
                   game_started := true }) := by
  constructor
  · intro m g coin pts s
    rfl
  · intro ne sea per m g coin pts s
    rfl

/-- C4 counterexample: scores are not monotone across advance cycles.  On a
started state with NE at 7, a well-formed live report of NE 0 overwrites the
score downwards, and a live report of NE −3 stores a negative score. -/
theorem score_decrease_cex :
    (simulate_game_update (liveFeed 0 0 2) 0 2 true 0 sevenPointState).2.1.ne_score = 0
    ∧ sevenPointState.ne_score = 7
    ∧ ((0 : Int) < 7)
    ∧ (simulate_game_update (liveFeed (-3) 0 2) 0 2 true 0 sevenPointState).2.1.ne_score = -3
    ∧ ((-3 : Int) < 0) :=
  ⟨rfl, rfl, by decide, rfl, by decide⟩

/-- C4 amended: the fallback scoring path is monotone — a fallback cycle
never decreases either team's score (it adds 3, 6 or 7 to one team or leaves
both unchanged).  The live-sync path, by contrast, assigns whatever integers
the feed reports, so monotonicity and non-negativity hold only for
fallback-driven sessions. -/
theorem fallback_scores_monotone (m g : Nat) (coin : Bool) (pts : Fin 3) (s : GameState) :
    s.ne_score ≤ (fallback_simulation m g coin pts s).1.ne_score
    ∧ s.sea_score ≤ (fallback_simulation m g coin pts s).1.sea_score := by
  rw [fallback_result_eq]
  dsimp only
  have hp : (0 : Int) ≤ (points pts : Int) := Int.natCast_nonneg _
  split
  · unfold bump
    split
    · constructor
      · show s.ne_score ≤ s.ne_score + (points pts : Int)
        omega
      · exact le_refl _
    · constructor
      · exact le_refl _
      · show s.sea_score ≤ s.sea_score + (points pts : Int)
        omega
  · exact ⟨le_refl _, le_refl _⟩

/-- C5 counterexample: live sync does not derive win probabilities from the
feed.  A well-formed matching event carrying a win-probability figure of 80
leaves the stored probabilities at their initial 55/45 — not at 80/20 as the
claim's derivation (`other = 100 − figure`) would require. -/
theorem win_probability_feed_ignored_cex :
    (simulate_game_update oddsFeed 0 2 true 0 initGameState).2.1.win_prob_ne = 55
    ∧ (simulate_game_update oddsFeed 0 2 true 0 initGameState).2.1.win_prob_sea = 45
    ∧ ((55 : Int) ≠ 80) :=
  ⟨rfl, rfl, by decide⟩

/-- C5 amended: no advance operation ever writes the win-probability fields —
live sync ignores any odds data in the feed and the fallback never touches
them — so both values persist from initialisation, where they are 55 and 45
and sum to 100. -/
theorem win_probability_preserved (fetch : Except Unit Json) (m g : Nat)
    (coin : Bool) (pts : Fin 3) (s : GameState) :
    (simulate_game_update fetch m g coin pts s).2.1.win_prob_ne = s.win_prob_ne
    ∧ (simulate_game_update fetch m g coin pts s).2.1.win_prob_sea = s.win_prob_sea
    ∧ initGameState.win_prob_ne + initGameState.win_prob_sea = 100 := by
  unfold simulate_game_update
  repeat' split
  all_goals refine ⟨?_, ?_, by decide⟩
  all_goals dsimp only
  all_goals first
    | exact (fb_wp _ g coin pts s).1
    | exact (fb_wp _ g coin pts s).2
    | (rename_i s2 msg hpg
       exact ((pgs_wp _ s).1 s2 msg hpg).1)
    | (rename_i s2 msg hpg
       exact ((pgs_wp _ s).1 s2 msg hpg).2)
    | (rename_i s2 hpg
       rw [(fb_wp _ g coin pts s2).1, ((pgs_wp _ s).2 s2 hpg).1])
    | (rename_i s2 hpg
       rw [(fb_wp _ g coin pts s2).2, ((pgs_wp _ s).2 s2 hpg).2])

/-- C8: when the live feed reports the tracked matchup with NE 21, SEA 14,
period 3, display clock 08:12 and possession SEA — in either competitor
order — the advance stores exactly these five values, whatever the prior
local state was. -/
theorem live_sync_exact_fields (m g : Nat) (coin : Bool) (pts : Fin 3) (s : GameState) :
    ((simulate_game_update feedA m g coin pts s).2.1.ne_score = 21
    ∧ (simulate_game_update feedA m g coin pts s).2.1.sea_score = 14
    ∧ (simulate_game_update feedA m g coin pts s).2.1.quarter = Json.num 3
    ∧ (simulate_game_update feedA m g coin pts s).2.1.time_remaining = Json.str "08:12"
    ∧ (simulate_game_update feedA m g coin pts s).2.1.possession = Json.str "SEA")
    ∧ ((simulate_game_update feedB m g coin pts s).2.1.ne_score = 21
    ∧ (simulate_game_update feedB m g coin pts s).2.1.sea_score = 14
    ∧ (simulate_game_update feedB m g coin pts s).2.1.quarter = Json.num 3
    ∧ (simulate_game_update feedB m g coin pts s).2.1.time_remaining = Json.str "08:12"
    ∧ (simulate_game_update feedB m g coin pts s).2.1.possession = Json.str "SEA") :=
  ⟨⟨rfl, rfl, rfl, rfl, rfl⟩, ⟨rfl, rfl, rfl, rfl, rfl⟩⟩

/-- C10: every advance cycle leaves `game_started = true`, whatever its prior
value: a matched live event writes the flag (line 299) and every other path
runs the fallback, which writes it first thing (line 312).  A single advance
before the explicit start therefore ends the pregame state for good. -/
theorem advance_sets_game_started (fetch : Except Unit Json) (m g : Nat)
    (coin : Bool) (pts : Fin 3) (s : GameState) :
    (simulate_game_update fetch m g coin pts s).2.1.game_started = true := by
  unfold simulate_game_update
  repeat' split
  all_goals dsimp only
  all_goals first
    | apply fb_started
    | (rename_i s2 msg hpg
       exact pgs_some_started _ s s2 msg hpg)

/-- Witness for the scoring clause of the amended C6 theorem: the 10th update
on a started, not-ended state adds the drawn points (here 3) to NE. -/
theorem fallback_simulation_spec_witness :
    (10 % 10 = 0 ∧ startedState.game_ended = false)
    ∧ (fallback_simulation 10 2 true 0 startedState).1.ne_score
        = startedState.ne_score + (points 0 : Int) :=
  ⟨⟨rfl, rfl⟩,
    (((fallback_simulation_spec 10 2 true 0 startedState).2.2.2.2.2 rfl rfl).1 rfl).1⟩
